import Mathlib

set_option maxRecDepth 20000

/-!
Verification development for the rule-based message neutralization engine
of the leo-backend repository: the trigger lexicon scan, the impact scorer
(mirror mode), the rule-based rewriter, the option validator and the
recommendation mapping, as implemented in
`src/ai_modules/message_rephraser_hf.py`, `src/ai_modules/message_rephraser.py`
and `src/ai_modules/sentiment_analyzer.py`.

Python strings are modelled as `List Char`.  The character-class helpers
(`pyLowerChar`, `isWordChar`, `isPySpace`, `pyIsUpper`) mirror Python's
Unicode semantics on the alphabet actually used by the lexicon and the
French message texts: ASCII plus the accented Latin letters appearing in
the source tables.
-/

/-- Python `str.lower()` on one character, restricted to ASCII letters and the
accented Latin letters used by the repository's lexicon and messages. -/
def pyLowerChar (c : Char) : Char :=
  if 'A' ≤ c ∧ c ≤ 'Z' then Char.ofNat (c.toNat + 32)
  else if c = 'À' then 'à' else if c = 'Â' then 'â' else if c = 'Ç' then 'ç'
  else if c = 'É' then 'é' else if c = 'È' then 'è' else if c = 'Ê' then 'ê'
  else if c = 'Ë' then 'ë' else if c = 'Î' then 'î' else if c = 'Ï' then 'ï'
  else if c = 'Ô' then 'ô' else if c = 'Ö' then 'ö' else if c = 'Ù' then 'ù'
  else if c = 'Û' then 'û' else if c = 'Ü' then 'ü' else if c = 'Œ' then 'œ'
  else c

/-- The accented letters (both cases) treated as letters in this model. -/
def accentedChars : List Char :=
  ['à', 'â', 'ç', 'é', 'è', 'ê', 'ë', 'î', 'ï', 'ô', 'ö', 'ù', 'û', 'ü', 'œ',
   'À', 'Â', 'Ç', 'É', 'È', 'Ê', 'Ë', 'Î', 'Ï', 'Ô', 'Ö', 'Ù', 'Û', 'Ü', 'Œ']

/-- Word character for the regex `\b` boundary (Python `\w`): alphanumeric,
underscore, or an accented letter. -/
def isWordChar (c : Char) : Bool :=
  c.isAlphanum || c = '_' || accentedChars.contains c

/-- A cased character in the sense of Python `str.isupper`. -/
def isCasedChar (c : Char) : Bool :=
  c.isAlpha || accentedChars.contains c

/-- An uppercase cased character. -/
def isUpperCasedChar (c : Char) : Bool :=
  ('A' ≤ c && c ≤ 'Z') ||
  (['À', 'Â', 'Ç', 'É', 'È', 'Ê', 'Ë', 'Î', 'Ï', 'Ô', 'Ö', 'Ù', 'Û', 'Ü', 'Œ'].contains c)

/-- Python `str.isupper()`: at least one cased character, and every cased
character is uppercase. -/
def pyIsUpper (s : List Char) : Bool :=
  s.any isCasedChar && s.all (fun c => !isCasedChar c || isUpperCasedChar c)

/-- Python whitespace (the regex `\s` class, ASCII part). -/
def isPySpace (c : Char) : Bool :=
  c = ' ' || c = '\t' || c = '\n' || c = '\r' || c = '\x0b' || c = '\x0c'

/-- `listStartsWith p s` : `s` begins with `p` (case-sensitive). -/
def listStartsWith : List Char → List Char → Bool
  | [], _ => true
  | _ :: _, [] => false
  | p :: ps, c :: cs => (p = c) && listStartsWith ps cs

/-- Python substring containment `p in s` (case-sensitive). -/
def containsSub (p : List Char) : List Char → Bool
  | [] => listStartsWith p []
  | c :: cs => listStartsWith p (c :: cs) || containsSub p cs

/-- `s` begins with `p`, comparing case-insensitively through `pyLowerChar`. -/
def startsWithCI : List Char → List Char → Bool
  | [], _ => true
  | _ :: _, [] => false
  | p :: ps, c :: cs => (pyLowerChar p = pyLowerChar c) && startsWithCI ps cs

/-- Case-insensitive substring containment. -/
def containsCI (p : List Char) : List Char → Bool
  | [] => startsWithCI p []
  | c :: cs => startsWithCI p (c :: cs) || containsCI p cs

/-- Fuelled worker for `re.sub(re.escape(pat), repl, s, flags=re.IGNORECASE)`:
scan left to right, replace each non-overlapping case-insensitive occurrence
of `pat` by `repl`, and continue after the matched span (the replacement text
is never rescanned).  The fuel is an upper bound on the scan length. -/
def replaceAllCIF (pat repl : List Char) : Nat → List Char → List Char
  | 0, s => s
  | _ + 1, [] => []
  | f + 1, c :: cs =>
    if startsWithCI pat (c :: cs) then
      repl ++ replaceAllCIF pat repl f (List.drop (pat.length - 1) cs)
    else
      c :: replaceAllCIF pat repl f cs

/-- Case-insensitive replace-all of a literal (escaped) pattern. -/
def replaceAllCI (pat repl s : List Char) : List Char :=
  replaceAllCIF pat repl (s.length + 1) s

/-- Python `str.strip()` (ASCII whitespace). -/
def pyStrip (s : List Char) : List Char :=
  ((s.dropWhile isPySpace).reverse.dropWhile isPySpace).reverse

/-- `re.sub(r'c\x7b2,\x7d', r, s)` for a single character `t`: collapse each
run of two or more `t` into the single character `r`; an isolated `t`
is left unchanged. -/
def collapseRunsF (t r : Char) : Nat → List Char → List Char
  | 0, s => s
  | _ + 1, [] => []
  | f + 1, c :: cs =>
    if c = t && cs.head? = some t then
      r :: collapseRunsF t r f (cs.dropWhile (· = t))
    else
      c :: collapseRunsF t r f cs

/-- `re.sub(r'!\x7b2,\x7d', '.', s)`. -/
def collapseExclRuns (s : List Char) : List Char := collapseRunsF '!' '.' (s.length + 1) s

/-- `re.sub(r'!\x7b2,\x7d', '!', s)` (the variant in `_apply_typed_rules`). -/
def collapseExclRunsToOne (s : List Char) : List Char := collapseRunsF '!' '!' (s.length + 1) s

/-- `re.sub(r'\?\x7b2,\x7d', '?', s)`. -/
def collapseQuestionRuns (s : List Char) : List Char := collapseRunsF '?' '?' (s.length + 1) s

/-- Worker for `re.sub(r'\s+', ' ', s)`: each maximal whitespace run becomes a
single space. -/
def collapseWsF : Nat → List Char → List Char
  | 0, s => s
  | _ + 1, [] => []
  | f + 1, c :: cs =>
    if isPySpace c then ' ' :: collapseWsF f (cs.dropWhile isPySpace)
    else c :: collapseWsF f cs

/-- `re.sub(r'\s+', ' ', s)`. -/
def collapseWs (s : List Char) : List Char := collapseWsF (s.length + 1) s

/-- `re.sub(r'!', '.', s)` (used by `_apply_typed_rules`). -/
def exclToDot (s : List Char) : List Char :=
  s.map (fun c => if c = '!' then '.' else c)

/-!  The lexicons, exactly as in the sources (dict insertion order). -/

/-- `self.trigger_replacements` of `message_rephraser_hf.py` (13 entries). -/
def trigger_replacements_hf : List (List Char × List Char) :=
  [("comme d'habitude".data, "comme convenu précédemment".data),
   ("encore".data, "à nouveau".data),
   ("jamais".data, "rarement".data),
   ("toujours".data, "souvent".data),
   ("à cause de toi".data, "en raison de cette situation".data),
   ("t'as qu'à".data, "il serait possible de".data),
   ("tu fais exprès".data, "il semble y avoir un malentendu".data),
   ("c'est ta faute".data, "cette situation nécessite notre attention".data),
   ("tu ne comprends rien".data, "il y a peut-être besoin de clarification".data),
   ("tu m'énerves".data, "cette situation est difficile".data),
   ("arrête de".data, "il serait préférable de ne pas".data),
   ("tu dois".data, "il serait bien de".data),
   ("pourquoi tu".data, "serait-il possible de".data)]

/-- `self.trigger_replacements` of `message_rephraser.py` (9 entries). -/
def trigger_replacements_mr : List (List Char × List Char) :=
  [("comme d'habitude".data, "comme convenu précédemment".data),
   ("encore".data, "à nouveau".data),
   ("jamais".data, "rarement".data),
   ("toujours".data, "souvent".data),
   ("à cause de toi".data, "en raison de cette situation".data),
   ("t'as qu'à".data, "il serait possible de".data),
   ("tu fais exprès".data, "il semble y avoir un malentendu".data),
   ("c'est ta faute".data, "cette situation nécessite notre attention".data),
   ("tu ne comprends rien".data, "il y a peut-être besoin de clarification".data)]

/-- The trigger phrases of the hf rephraser, in iteration order. -/
def hf_trigger_phrases : List (List Char) := trigger_replacements_hf.map Prod.fst

/-- The trigger phrases of the OpenAI-variant rephraser. -/
def mr_trigger_phrases : List (List Char) := trigger_replacements_mr.map Prod.fst

/-- The trigger-replacement loop of `apply_calming_rules`
(`message_rephraser_hf.py`): all 13 case-insensitive replace-all passes in
dict order. -/
def lexiconPassHF (s : List Char) : List Char :=
  trigger_replacements_hf.foldl (fun acc pr => replaceAllCI pr.1 pr.2 acc) s

/-- The trigger-replacement loop of `_apply_typed_rules`
(`message_rephraser.py`). -/
def lexiconPassMR (s : List Char) : List Char :=
  trigger_replacements_mr.foldl (fun acc pr => replaceAllCI pr.1 pr.2 acc) s

/-!  The grammar-softening rules of `apply_calming_rules`
(`message_rephraser_hf.py`, lines 83-103).  Each rule is one
`re.sub(pattern, replacement, result, flags=re.IGNORECASE)` pass.  A rule is
modelled by a match attempt at one position: given whether the previous
character of the original string is a word character (for `\b`) and the
remaining text, it returns `some (replacement, lastMatchedChar, remaining)`
on a match.  The driver `subDriveF` scans left to right and never rescans
replacement text, exactly like `re.sub`. -/

/-- Generic `re.sub` driver: scan positions left to right, replacing each
leftmost non-overlapping match.  `prevW` is the wordness of the previous
character of the original string (`false` at the start of the string). -/
def subDriveF (tm : Bool → List Char → Option (List Char × Char × List Char)) :
    Nat → Bool → List Char → List Char
  | 0, _, s => s
  | _ + 1, _, [] => []
  | f + 1, prevW, c :: cs =>
    match tm prevW (c :: cs) with
    | some (repl, lastC, rem) => repl ++ subDriveF tm f (isWordChar lastC) rem
    | none => c :: subDriveF tm f (isWordChar c) cs

/-- Run one grammar rule over a whole string. -/
def runSub (tm : Bool → List Char → Option (List Char × Char × List Char))
    (s : List Char) : List Char :=
  subDriveF tm (s.length + 1) false s

/-- The lazy group `(.+?)` of rule 1, looking for the continuation
`' (jamais|toujours)'`: extend the captured text one (non-newline) character at
a time and stop at the first position where the continuation matches. -/
def r1Lazy (g2 : List Char) : List Char → Option (List Char × Char × List Char)
  | [] => none
  | c :: cs =>
    if c = '\n' then none
    else
      let g2' := g2 ++ [c]
      if startsWithCI " jamais".data cs then some (g2', 's', cs.drop 7)
      else if startsWithCI " toujours".data cs then some (g2', 's', cs.drop 9)
      else r1Lazy g2' cs

/-- One alternative of rule 1's optional group `(ne |n')?`, with the group
text of length `g1len` already chosen. -/
def r1Attempt (g1len : Nat) (rest1 : List Char) : Option (List Char × Char × List Char) :=
  match r1Lazy [] (rest1.drop g1len) with
  | some (g2, lc, rem) => some ("il serait bien de ".data ++ g2, lc, rem)
  | none => none

/-- Rule 1: `\btu (ne |n')?(.+?) (jamais|toujours)` → `il serait bien de \2`.
The optional group tries `ne `, then `n'`, then the empty alternative, each
with full backtracking into the lazy group, as in Python. -/
def r1Try (prevW : Bool) (s : List Char) : Option (List Char × Char × List Char) :=
  if prevW then none
  else if startsWithCI "tu ".data s then
    let rest1 := s.drop 3
    match (if startsWithCI "ne ".data rest1 then r1Attempt 3 rest1 else none) with
    | some r => some r
    | none =>
      match (if startsWithCI "n'".data rest1 then r1Attempt 2 rest1 else none) with
      | some r => some r
      | none => r1Attempt 0 rest1
  else none

/-- Rule 2: `\btu es (.+)` → `il semble que` (the capture is dropped; `.`
does not match a newline, so the match runs to the end of the line). -/
def r2Try (prevW : Bool) (s : List Char) : Option (List Char × Char × List Char) :=
  if prevW then none
  else if startsWithCI "tu es ".data s then
    let rest := s.drop 6
    let cap := rest.takeWhile (· ≠ '\n')
    if cap = [] then none
    else some ("il semble que".data, cap.getLastD ' ', rest.drop cap.length)
  else none

/-- Rule 3: `\bpourquoi tu (.+)` → `serait-il possible de \1`. -/
def r3Try (prevW : Bool) (s : List Char) : Option (List Char × Char × List Char) :=
  if prevW then none
  else if startsWithCI "pourquoi tu ".data s then
    let rest := s.drop 12
    let cap := rest.takeWhile (· ≠ '\n')
    if cap = [] then none
    else some ("serait-il possible de ".data ++ cap, cap.getLastD ' ', rest.drop cap.length)
  else none

/-- Rule 4: `\btoujours\b` → `parfois`. -/
def r4Try (prevW : Bool) (s : List Char) : Option (List Char × Char × List Char) :=
  if prevW then none
  else if startsWithCI "toujours".data s then
    let rem := s.drop 8
    match rem.head? with
    | none => some ("parfois".data, 's', rem)
    | some c => if isWordChar c then none else some ("parfois".data, 's', rem)
  else none

/-- Rule 5: `\bjamais\b` → `rarement`. -/
def r5Try (prevW : Bool) (s : List Char) : Option (List Char × Char × List Char) :=
  if prevW then none
  else if startsWithCI "jamais".data s then
    let rem := s.drop 6
    match rem.head? with
    | none => some ("rarement".data, 's', rem)
    | some c => if isWordChar c then none else some ("rarement".data, 's', rem)
  else none

/-- Rule 6: `\barrête de (.+)` → `il serait préférable de ne pas \1`. -/
def r6Try (prevW : Bool) (s : List Char) : Option (List Char × Char × List Char) :=
  if prevW then none
  else if startsWithCI "arrête de ".data s then
    let rest := s.drop 10
    let cap := rest.takeWhile (· ≠ '\n')
    if cap = [] then none
    else some ("il serait préférable de ne pas ".data ++ cap, cap.getLastD ' ', rest.drop cap.length)
  else none

/-- Rule 7: `\btu dois (.+)` → `il serait bien de \1`. -/
def r7Try (prevW : Bool) (s : List Char) : Option (List Char × Char × List Char) :=
  if prevW then none
  else if startsWithCI "tu dois ".data s then
    let rest := s.drop 8
    let cap := rest.takeWhile (· ≠ '\n')
    if cap = [] then none
    else some ("il serait bien de ".data ++ cap, cap.getLastD ' ', rest.drop cap.length)
  else none

/-- Rule 8: `\bc'est ta faute` → `pour le bien de notre enfant`. -/
def r8Try (prevW : Bool) (s : List Char) : Option (List Char × Char × List Char) :=
  if prevW then none
  else if startsWithCI "c'est ta faute".data s then
    some ("pour le bien de notre enfant".data, 'e', s.drop 14)
  else none

/-- Rule 9: `\bà cause de toi` → `dans l'intérêt de notre enfant`. -/
def r9Try (prevW : Bool) (s : List Char) : Option (List Char × Char × List Char) :=
  if prevW then none
  else if startsWithCI "à cause de toi".data s then
    some ("dans l'intérêt de notre enfant".data, 'i', s.drop 14)
  else none

/-- The nine grammar rules of `apply_calming_rules`, applied in source order,
each as a full pass over the previous pass's output. -/
def grammarRulesPass (s : List Char) : List Char :=
  runSub r9Try (runSub r8Try (runSub r7Try (runSub r6Try (runSub r5Try
    (runSub r4Try (runSub r3Try (runSub r2Try (runSub r1Try s))))))))

/-- The courtesy markers checked by the politeness step. -/
def courtesyMarkers : List (List Char) :=
  ["merci".data, "cordialement".data, "s'il te plaît".data]

/-- `any(word in result.lower() for word in ['merci', 'cordialement', "s'il te plaît"])`. -/
def hasCourtesy (s : List Char) : Bool :=
  courtesyMarkers.any (fun w => containsSub w (s.map pyLowerChar))

/-- `result.endswith('.')`. -/
def endsWithPeriod (s : List Char) : Bool := s.getLast? = some '.'

/-- The politeness step of `apply_calming_rules` (lines 110-114): if no
courtesy marker is present, ensure a terminal period and append ` Merci.`. -/
def politenessClose (s : List Char) : List Char :=
  if hasCourtesy s then s
  else (if endsWithPeriod s then s else s ++ ['.']) ++ " Merci.".data

/-- `apply_calming_rules` of `message_rephraser_hf.py`: lexicon substitution,
grammar rules, punctuation collapsing, whitespace normalization and strip,
then the politeness closure. -/
def apply_calming_rules (s : List Char) : List Char :=
  politenessClose (pyStrip (collapseWs (collapseQuestionRuns (collapseExclRuns
    (grammarRulesPass (lexiconPassHF s))))))

/-- `_apply_typed_rules` of `message_rephraser.py`: lexicon substitution, then
`!` runs collapsed to one `!`, every `!` turned into `.`, `?` runs collapsed,
whitespace normalized and stripped. -/
def apply_typed_rules (s : List Char) : List Char :=
  pyStrip (collapseWs (collapseQuestionRuns (exclToDot
    (collapseExclRunsToOne (lexiconPassMR s)))))

/-!  `detect_triggers` and `mirror_mode` of `message_rephraser_hf.py`. -/

/-- The pseudo-signal appended when the message contains `!` or `?`. -/
def punctSignal : List Char := "ponctuation excessive".data

/-- The pseudo-signal appended when the message is all uppercase. -/
def capsSignal : List Char := "majuscules excessives".data

/-- `any(char in text for char in ['!', '?'])`. -/
def hasExclOrQuestion (s : List Char) : Bool :=
  s.any (· = '!') || s.any (· = '?')

/-- `detect_triggers` (lines 55-72): every matched lexicon phrase (scan on the
lowercased text), then the punctuation pseudo-signal, then the all-caps
pseudo-signal. -/
def detect_triggers (s : List Char) : List (List Char) :=
  (hf_trigger_phrases.filter (fun t => containsSub t (s.map pyLowerChar)))
    ++ (if hasExclOrQuestion s then [punctSignal] else [])
    ++ (if pyIsUpper s then [capsSignal] else [])

/-- Number of lexicon phrases found in the message by the `detect_triggers`
scan (phrase-level, not category-level). -/
def matched_phrase_count (s : List Char) : Nat :=
  (hf_trigger_phrases.filter (fun t => containsSub t (s.map pyLowerChar))).length

/-- The impact score of `mirror_mode` (lines 276-286):
`len(triggers) * 2`, plus 1 for `!`/`?`, plus 3 for all-caps. -/
def mirror_score (s : List Char) : Nat :=
  (detect_triggers s).length * 2
    + (if hasExclOrQuestion s then 1 else 0)
    + (if pyIsUpper s then 3 else 0)

/-- The impact level of `mirror_mode` (lines 288-297). -/
def mirror_level (s : List Char) : List Char :=
  if 6 ≤ mirror_score s then "Élevé".data
  else if 3 ≤ mirror_score s then "Modéré".data
  else "Faible".data

/-- The recommendation string of `mirror_mode`. -/
def mirror_recommendation (s : List Char) : List Char :=
  if 6 ≤ mirror_score s then
    "Ce message risque de créer des tensions. Une reformulation est fortement recommandée.".data
  else if 3 ≤ mirror_score s then
    "Ce message pourrait être mal perçu. Considérez une reformulation.".data
  else
    "Ce message semble approprié pour la communication.".data

/-- The fixed four-item suggestion list of `mirror_mode`. -/
def suggestedChangesList : List (List Char) :=
  ["Utiliser un ton plus neutre".data,
   "Éviter les accusations directes".data,
   "Centrer sur l'intérêt de l'enfant".data,
   "Ajouter une formule de politesse".data]

/-- The result dict of `mirror_mode`. -/
structure MirrorResult where
  impact_score : Nat
  impact_level : List Char
  triggers_detected : List (List Char)
  recommendation : List Char
  suggested_changes : List (List Char)
deriving DecidableEq

/-- `mirror_mode` (lines 266-310). -/
def mirror_mode (s : List Char) : MirrorResult :=
  { impact_score := mirror_score s
    impact_level := mirror_level s
    triggers_detected := detect_triggers s
    recommendation := mirror_recommendation s
    suggested_changes := if 2 < mirror_score s then suggestedChangesList else [] }

/-!  `generate_recommendation`, `create_formal_version` and `rephrase_message`
of `message_rephraser_hf.py`. -/

/-- One rephrasing option (a dict in the source). -/
structure RewriteOption where
  text : List Char
  method : List Char
  confidence : Rat
  description : List Char
deriving DecidableEq

/-- `generate_recommendation` (lines 204-213): the trigger-count checks run
before the empty-options check. -/
def generate_recommendation (triggers : List (List Char))
    (options : List RewriteOption) : List Char :=
  if 3 < triggers.length then
    "Votre message contient plusieurs éléments de tension. Nous recommandons fortement d'utiliser une des reformulations proposées.".data
  else if 0 < triggers.length then
    "Votre message pourrait être mal interprété. Une reformulation pourrait améliorer la communication.".data
  else if options.isEmpty then
    "Votre message est déjà approprié pour la communication.".data
  else
    "Votre message est assez neutre. Les reformulations sont optionnelles.".data

/-- `create_formal_version` (lines 186-202): ordered keyword-set membership
tests on the lowercased message. -/
def create_formal_version (s : List Char) : List Char :=
  let lower := s.map pyLowerChar
  if ["récupérer".data, "chercher".data, "prendre".data].any (fun w => containsSub w lower) then
    "Je souhaiterais organiser la récupération de notre enfant selon les modalités convenues. Merci de me confirmer les détails.".data
  else if ["retard".data, "en retard".data, "attendre".data].any (fun w => containsSub w lower) then
    "Il y a eu un contretemps. Je vous tiendrai informé(e) de l'heure d'arrivée. Merci de votre compréhension.".data
  else if ["problème".data, "souci".data, "difficulté".data].any (fun w => containsSub w lower) then
    "Il semble y avoir une situation qui nécessite notre attention. Pourrions-nous en discuter dans l'intérêt de notre enfant ?".data
  else if ["médecin".data, "docteur".data, "santé".data, "malade".data].any (fun w => containsSub w lower) then
    "Je vous informe d'une question concernant la santé de notre enfant. Merci de me tenir au courant de votre côté également.".data
  else
    "J'ai un point à aborder concernant notre enfant. Pourrions-nous en discuter de manière constructive ? Merci.".data

/-- The analysis sub-dict of a `rephrase_message` result. -/
structure AnalysisInfo where
  triggers_detected : List (List Char)
  sentiment : List Char
  emotion_detected : List (List Char)
deriving DecidableEq

/-- The result dict of `rephrase_message`; `analysis` is `none` for the
empty-input branch, whose analysis dict is empty. -/
structure RephraseResult where
  original : List Char
  rephrased_options : List RewriteOption
  analysis : Option AnalysisInfo
  recommendation : List Char
deriving DecidableEq

/-- `rephrase_message` of `message_rephraser_hf.py` (lines 118-184).  The
guard `not original_message or not original_message.strip()` is the
empty-or-whitespace-only test; no other branch of the body can raise, so the
`except` handler is dead code in this model. -/
def rephrase_message (s : List Char) : RephraseResult :=
  if s = [] ∨ pyStrip s = [] then
    { original := s
      rephrased_options := []
      analysis := none
      recommendation := "Message vide".data }
  else
    let triggers := detect_triggers s
    let calmed := apply_calming_rules s
    let formal := create_formal_version s
    let options :=
      (if calmed ≠ s then
        [{ text := calmed, method := "rules_based".data, confidence := (8 : Rat) / 10,
           description := "Reformulation basée sur les règles d'apaisement".data }]
       else [])
      ++ (if formal ≠ calmed then
        [{ text := formal, method := "formal_template".data, confidence := (7 : Rat) / 10,
           description := "Version plus formelle et neutre".data }]
       else [])
    { original := s
      rephrased_options := options
      analysis := some
        { triggers_detected := triggers
          sentiment := if 2 < triggers.length then "hostile".data else "neutre".data
          emotion_detected := triggers }
      recommendation := generate_recommendation triggers options }

/-!  The lexicon scan of `analyze_sentiment` and `_detect_patterns`
(`sentiment_analyzer.py`), and `_validate_reformulation`
(`message_rephraser.py`). -/

/-- `self.trigger_words['reproches']`. -/
def reproches_words : List (List Char) :=
  ["comme d'habitude".data, "encore".data, "jamais".data, "toujours".data,
   "à cause de toi".data, "t'as qu'à".data]

/-- `self.trigger_words['sarcasme']`. -/
def sarcasme_words : List (List Char) :=
  ["bien sûr".data, "évidemment".data, "c'est ça".data, "parfait".data, "génial".data]

/-- `self.trigger_words['accusations']`. -/
def accusations_words : List (List Char) :=
  ["tu fais exprès".data, "tu mens".data, "tu ne comprends rien".data, "c'est ta faute".data]

/-- `self.trigger_words['manipulation']`. -/
def manipulation_words : List (List Char) :=
  ["si tu m'aimais".data, "tu ne penses qu'à toi".data, "les enfants vont souffrir".data]

/-- `self.trigger_words` of `SentimentAnalyzer`, in dict insertion order. -/
def analyzer_trigger_words : List (List Char × List (List Char)) :=
  [("reproches".data, reproches_words),
   ("sarcasme".data, sarcasme_words),
   ("accusations".data, accusations_words),
   ("manipulation".data, manipulation_words)]

/-- `re.search(r'\?.*\?', text)`: two `?` on the same line. -/
def qThenQSameLine : List Char → Bool
  | [] => false
  | c :: cs => (c = '?' && (cs.takeWhile (· ≠ '\n')).any (· = '?')) || qThenQSameLine cs

/-- `text.count(c)`. -/
def countChar (c : Char) (s : List Char) : Nat := (s.filter (· = c)).length

/-- The generalizing-word set of `_detect_patterns`. -/
def generalization_words : List (List Char) :=
  ["tous".data, "toutes".data, "personne".data, "rien".data, "jamais".data, "toujours".data]

/-- The negative-comparison phrase set of `_detect_patterns`. -/
def negative_comparison_phrases : List (List Char) :=
  ["contrairement à".data, "au moins lui".data, "elle au moins".data]

/-- The four pattern tags of `_detect_patterns`, appended in source order
according to the four condition flags. -/
def patConcat (b1 b2 b3 b4 : Bool) : List (List Char) :=
  (if b1 then ["questions_rhetoriques".data] else [])
    ++ (if b2 then ["exclamations_excessives".data] else [])
    ++ (if b3 then ["generalisation".data] else [])
    ++ (if b4 then ["comparaison_negative".data] else [])

/-- `_detect_patterns` (`sentiment_analyzer.py`, lines 100-130). -/
def detect_patterns (s : List Char) : List (List Char) :=
  patConcat
    (qThenQSameLine s || decide (2 < countChar '?' s))
    (decide (2 < countChar '!' s))
    (generalization_words.any (fun w => containsSub w (s.map pyLowerChar)))
    (negative_comparison_phrases.any (fun w => containsSub w (s.map pyLowerChar)))

/-- The `emotion_detected` list computed by `analyze_sentiment`
(`sentiment_analyzer.py`, lines 36-98): one category tag per lexicon category
with at least one hit, in dict order, followed by the detected patterns; the
empty-or-whitespace guard returns an empty list.  The pretrained sentiment
pipeline only affects the `sentiment`/`score` fields, not this list. -/
def analyze_sentiment_emotions (s : List Char) : List (List Char) :=
  if s = [] ∨ pyStrip s = [] then []
  else
    ((analyzer_trigger_words.filter
        (fun pr => pr.2.any (fun w => containsSub w (s.map pyLowerChar)))).map Prod.fst)
      ++ detect_patterns s

/-- `_validate_reformulation` (`message_rephraser.py`, lines 217-245).  The
original-analysis argument is unused by the source body. -/
def validate_reformulation (s : List Char) : Bool :=
  if s = [] then false
  else if (pyStrip s).length < 5 then false
  else if mr_trigger_phrases.any (fun t => containsSub t (s.map pyLowerChar)) then false
  else if 500 < s.length then false
  else if containsSub "!!".data s || containsSub "???".data s then false
  else true

/-!  Derived definitions used by the verification statements. -/

/-- The indicator part of a `detect_triggers` result: the punctuation
pseudo-signal followed by the all-caps pseudo-signal, each conditional. -/
def indicatorTail (b1 b2 : Bool) : List (List Char) :=
  (if b1 then [punctSignal] else []) ++ (if b2 then [capsSignal] else [])

/-- No lexicon trigger phrase of the hf rephraser occurs (case-insensitively)
in `s`. -/
def noResidualTriggerHF (s : List Char) : Bool :=
  hf_trigger_phrases.all (fun t => !containsCI t s)

/-- No lexicon trigger phrase of the OpenAI-variant rephraser occurs
(case-insensitively) in `s`. -/
def noResidualTriggerMR (s : List Char) : Bool :=
  mr_trigger_phrases.all (fun t => !containsCI t s)

/-!  General lemmas about the string primitives. -/

theorem replaceAllCIF_of_not_containsCI (pat repl : List Char) :
    ∀ (f : Nat) (s : List Char), containsCI pat s = false → replaceAllCIF pat repl f s = s := by
  intro f
  induction f with
  | zero => intro s _; rfl
  | succ f ih =>
    intro s h
    cases s with
    | nil => rfl
    | cons c cs =>
      unfold containsCI at h
      simp only [Bool.or_eq_false_iff] at h
      unfold replaceAllCIF
      simp [h.1, ih cs h.2]

theorem lexicon_foldl_of_no_trigger :
    ∀ (prs : List (List Char × List Char)) (s : List Char),
      (∀ pr ∈ prs, containsCI pr.1 s = false) →
      prs.foldl (fun acc pr => replaceAllCI pr.1 pr.2 acc) s = s := by
  intro prs
  induction prs with
  | nil => intro s _; rfl
  | cons p ps ih =>
    intro s h
    have h1 : replaceAllCI p.1 p.2 s = s :=
      replaceAllCIF_of_not_containsCI p.1 p.2 (s.length + 1) s (h p (List.mem_cons_self _ _))
    rw [List.foldl_cons, h1]
    exact ih s (fun pr hpr => h pr (List.mem_cons_of_mem _ hpr))

theorem containsSub_append_right (p y : List Char) (h : containsSub p y = true) :
    ∀ x : List Char, containsSub p (x ++ y) = true := by
  intro x
  induction x with
  | nil => simpa using h
  | cons c cs ih => simp [containsSub, ih]

/-!  Claim theorems. -/

/-- **C1, counterexample.**  The claim says the rule-based rewrite output
contains no lexicon trigger (case-insensitively) and that a second pass makes
no further lexicon substitutions.  Both fail: whitespace normalization runs
after the lexicon pass and can merge a multi-space sequence into a trigger
phrase.  `apply_calming_rules "arrête  de crier"` yields
`"arrête de crier. Merci."`, which contains the trigger `arrête de`, and the
lexicon pass of a second application substitutes it; likewise
`_apply_typed_rules "comme  d'habitude ok"` yields `"comme d'habitude ok"`,
which contains the trigger `comme d'habitude`. -/
theorem c1_residual_trigger_counterexample :
    ("arrête de".data ∈ hf_trigger_phrases) ∧
    containsCI "arrête de".data (apply_calming_rules "arrête  de crier".data) = true ∧
    lexiconPassHF (apply_calming_rules "arrête  de crier".data) ≠
      apply_calming_rules "arrête  de crier".data ∧
    ("comme d'habitude".data ∈ mr_trigger_phrases) ∧
    containsCI "comme d'habitude".data (apply_typed_rules "comme  d'habitude ok".data) = true :=
  ⟨by decide, by decide, by decide, by decide, by decide⟩

/-- **C1** (amended).  The rewrite output can contain lexicon triggers, so the
unconditional claim fails; what holds is the conditional link it was built on:
whenever the output of the rule-based rewrite contains no lexicon trigger
phrase (case-insensitively), re-running the lexicon-substitution stage on that
output is the identity — a second application then performs no further lexicon
substitutions.  This holds for both rewriter variants. -/
theorem c1_trigger_free_output_fixed_by_lexicon (s : List Char) :
    (noResidualTriggerHF (apply_calming_rules s) = true →
      lexiconPassHF (apply_calming_rules s) = apply_calming_rules s) ∧
    (noResidualTriggerMR (apply_typed_rules s) = true →
      lexiconPassMR (apply_typed_rules s) = apply_typed_rules s) := by
  constructor
  · intro h
    apply lexicon_foldl_of_no_trigger
    intro pr hpr
    have h2 := List.all_eq_true.mp h pr.1 (List.mem_map_of_mem Prod.fst hpr)
    simpa using h2
  · intro h
    apply lexicon_foldl_of_no_trigger
    intro pr hpr
    have h2 := List.all_eq_true.mp h pr.1 (List.mem_map_of_mem Prod.fst hpr)
    simpa using h2

/-- **C1, witness.**  A concrete trigger-free rewrite output on which the
lexicon stage is indeed the identity. -/
theorem c1_trigger_free_output_witness :
    lexiconPassHF (apply_calming_rules "Bonjour".data) = apply_calming_rules "Bonjour".data ∧
    lexiconPassMR (apply_typed_rules "Bonjour".data) = apply_typed_rules "Bonjour".data :=
  ⟨(c1_trigger_free_output_fixed_by_lexicon "Bonjour".data).1 (by decide),
   (c1_trigger_free_output_fixed_by_lexicon "Bonjour".data).2 (by decide)⟩

/-- The politeness closure always leaves a courtesy marker in the string
(case-insensitively): either one was already present, or ` Merci.` is
appended. -/
theorem politenessClose_has_marker (r : List Char) :
    (containsSub "merci".data ((politenessClose r).map pyLowerChar)
      || (containsSub "cordialement".data ((politenessClose r).map pyLowerChar)
        || containsSub "s'il te plaît".data ((politenessClose r).map pyLowerChar))) = true := by
  unfold politenessClose
  by_cases h : hasCourtesy r = true
  · rw [if_pos h]
    unfold hasCourtesy courtesyMarkers at h
    simpa using h
  · rw [if_neg h]
    rw [Bool.or_eq_true]
    left
    rw [List.map_append]
    exact containsSub_append_right _ _ (by decide) _

/-- **C9.**  For every input, the output of `apply_calming_rules` contains at
least one courtesy marker (`merci`, `cordialement` or `s'il te plaît`,
case-insensitively): if none survives the earlier stages, the politeness
closure appends ` Merci.` (after ensuring a terminal period), and this also
covers the case where the earlier stages reduce the message to the empty
string — the function is total and never raises. -/
theorem c9_rewrite_always_courteous (s : List Char) :
    (containsSub "merci".data ((apply_calming_rules s).map pyLowerChar)
      || (containsSub "cordialement".data ((apply_calming_rules s).map pyLowerChar)
        || containsSub "s'il te plaît".data ((apply_calming_rules s).map pyLowerChar))) = true := by
  unfold apply_calming_rules
  exact politenessClose_has_marker _

/-- **C8.**  For every empty or whitespace-only input, `rephrase_message`
returns (without raising) a well-formed result with an empty option list, the
recommendation `Message vide`, and the original field equal to the input. -/
theorem c8_empty_input_no_op (s : List Char) (h : pyStrip s = []) :
    (rephrase_message s).rephrased_options = [] ∧
    (rephrase_message s).recommendation = "Message vide".data ∧
    (rephrase_message s).original = s := by
  unfold rephrase_message
  rw [if_pos (Or.inr h)]
  exact ⟨rfl, rfl, rfl⟩

/-- **C8, witness**: the single-space (whitespace-only) input. -/
theorem c8_empty_input_witness :
    (rephrase_message [' ']).rephrased_options = [] ∧
    (rephrase_message [' ']).recommendation = "Message vide".data ∧
    (rephrase_message [' ']).original = [' '] :=
  c8_empty_input_no_op [' '] (by decide)

/-- **C2, counterexample.**  The claim predicts a score of
`2·(category signals) + 1·(punctuation) + 3·(all caps)`, which is at most 1
for the message `"!"` (no lexicon hit, no caps).  The code scores it 3: the
punctuation indicator is appended to the trigger list itself and therefore
also receives the base weight 2 in `len(triggers) * 2`, on top of the +1. -/
theorem c2_weighting_counterexample :
    (mirror_mode ['!']).impact_score = 3 ∧
    matched_phrase_count ['!'] = 0 ∧
    pyIsUpper ['!'] = false := by
  refine ⟨by decide, by decide, by decide⟩

/-- **C2** (amended).  The impact score equals 2 per *matched lexicon phrase*
(phrase-level, not category-level), plus 3 in total when the message contains
`!` or `?` (2 from the pseudo-entry in the trigger list plus the explicit +1),
plus 5 in total when the message is all-caps (2 from the pseudo-entry plus the
explicit +3). -/
theorem c2_weighting_formula (m : List Char) :
    (mirror_mode m).impact_score =
      2 * matched_phrase_count m
        + (if hasExclOrQuestion m then 3 else 0)
        + (if pyIsUpper m then 5 else 0) := by
  simp only [mirror_mode, mirror_score, detect_triggers, matched_phrase_count]
  cases h1 : hasExclOrQuestion m <;> cases h2 : pyIsUpper m <;>
    simp [h1, h2, List.length_append] <;> omega

/-- **C3.**  `mirror_mode` classifies the impact level as `Élevé` exactly when
the impact score is at least 6, as `Modéré` exactly when it is at least 3 and
below 6, and as `Faible` exactly when it is below 3. -/
theorem c3_level_thresholds (m : List Char) :
    ((mirror_mode m).impact_level = "Élevé".data ↔ 6 ≤ (mirror_mode m).impact_score) ∧
    ((mirror_mode m).impact_level = "Modéré".data ↔
      (3 ≤ (mirror_mode m).impact_score ∧ (mirror_mode m).impact_score < 6)) ∧
    ((mirror_mode m).impact_level = "Faible".data ↔ (mirror_mode m).impact_score < 3) := by
  have hEM : ("Élevé".data : List Char) ≠ "Modéré".data := by decide
  have hEF : ("Élevé".data : List Char) ≠ "Faible".data := by decide
  have hMF : ("Modéré".data : List Char) ≠ "Faible".data := by decide
  simp only [mirror_mode]
  unfold mirror_level
  by_cases h1 : 6 ≤ mirror_score m
  · rw [if_pos h1]
    refine ⟨⟨fun _ => h1, fun _ => rfl⟩, ⟨fun h => absurd h hEM, ?_⟩,
      ⟨fun h => absurd h hEF, ?_⟩⟩
    · rintro ⟨-, h6⟩; exact absurd h1 (by omega)
    · intro h3; exact absurd h1 (by omega)
  · by_cases h2 : 3 ≤ mirror_score m
    · rw [if_neg h1, if_pos h2]
      refine ⟨⟨fun h => absurd h (Ne.symm hEM), fun h6 => absurd h6 h1⟩,
        ⟨fun _ => ⟨h2, by omega⟩, fun _ => rfl⟩,
        ⟨fun h => absurd h hMF, ?_⟩⟩
      intro h3; exact absurd h2 (by omega)
    · rw [if_neg h1, if_neg h2]
      refine ⟨⟨fun h => absurd h (Ne.symm hEF), fun h6 => absurd h6 (by omega)⟩,
        ⟨fun h => absurd h (Ne.symm hMF), ?_⟩,
        ⟨fun _ => by omega, fun _ => rfl⟩⟩
      rintro ⟨h3, -⟩; exact absurd h3 h2

/-- **C3, witness.**  A raw score of 6 is classified `Élevé` (high) and a raw
score of 5 is classified `Modéré` (moderate), at concrete messages with those
scores. -/
theorem c3_level_thresholds_witness :
    (mirror_mode "encore jamais toujours".data).impact_score = 6 ∧
    (mirror_mode "encore jamais toujours".data).impact_level = "Élevé".data ∧
    (mirror_mode "encore!".data).impact_score = 5 ∧
    (mirror_mode "encore!".data).impact_level = "Modéré".data :=
  ⟨by decide,
   (c3_level_thresholds "encore jamais toujours".data).1.mpr (by decide),
   by decide,
   (c3_level_thresholds "encore!".data).2.1.mpr (by decide)⟩

/-- **C10.**  `mirror_mode` returns the fixed four-item suggestion list exactly
when the impact score exceeds 2, equivalently exactly when the impact level
is `Modéré` or `Élevé`, and the empty list otherwise. -/
theorem c10_suggested_changes_iff (m : List Char) :
    ((mirror_mode m).suggested_changes = suggestedChangesList ↔
      2 < (mirror_mode m).impact_score) ∧
    ((mirror_mode m).suggested_changes = [] ↔ (mirror_mode m).impact_score ≤ 2) ∧
    (2 < (mirror_mode m).impact_score ↔
      ((mirror_mode m).impact_level = "Modéré".data ∨
        (mirror_mode m).impact_level = "Élevé".data)) := by
  have hne : suggestedChangesList ≠ [] := by decide
  simp only [mirror_mode]
  by_cases h : 2 < mirror_score m
  · rw [if_pos h]
    refine ⟨⟨fun _ => h, fun _ => rfl⟩,
      ⟨fun he => absurd he hne, fun h2 => absurd h (by omega)⟩, ?_⟩
    unfold mirror_level
    by_cases h6 : 6 ≤ mirror_score m
    · rw [if_pos h6]
      exact ⟨fun _ => Or.inr rfl, fun _ => h⟩
    · rw [if_neg h6, if_pos (by omega : 3 ≤ mirror_score m)]
      exact ⟨fun _ => Or.inl rfl, fun _ => h⟩
  · rw [if_neg h]
    refine ⟨⟨fun he => absurd he.symm hne, fun hlt => absurd hlt h⟩,
      ⟨fun _ => by omega, fun _ => rfl⟩, ?_⟩
    unfold mirror_level
    rw [if_neg (by omega : ¬ 6 ≤ mirror_score m), if_neg (by omega : ¬ 3 ≤ mirror_score m)]
    constructor
    · intro hlt; exact absurd hlt h
    · rintro (hm | he)
      · exact absurd hm (by decide)
      · exact absurd he (by decide)

/-- **C10, witness.**  Concrete messages on both sides of the boundary. -/
theorem c10_suggested_changes_witness :
    (mirror_mode "encore!".data).suggested_changes = suggestedChangesList ∧
    (mirror_mode "salut".data).suggested_changes = [] :=
  ⟨(c10_suggested_changes_iff "encore!".data).1.mpr (by decide),
   (c10_suggested_changes_iff "salut".data).2.1.mpr (by decide)⟩

/-!  Membership and uniqueness lemmas for the signal lists. -/

theorem detect_triggers_eq_indicator (s : List Char) :
    detect_triggers s =
      (hf_trigger_phrases.filter (fun t => containsSub t (s.map pyLowerChar)))
        ++ indicatorTail (hasExclOrQuestion s) (pyIsUpper s) := by
  unfold detect_triggers indicatorTail
  rw [List.append_assoc]

theorem nodup_count_le_one {α : Type} [BEq α] [LawfulBEq α] (a : α) :
    ∀ l : List α, l.Nodup → l.count a ≤ 1 := by
  intro l
  induction l with
  | nil => intro _; simp
  | cons b bs ih =>
    intro h
    rcases List.nodup_cons.mp h with ⟨hb, hbs⟩
    rw [List.count_cons]
    by_cases hba : b = a
    · subst hba
      have h0 : bs.count b = 0 := List.count_eq_zero.mpr hb
      simp [h0]
    · have hf : (b == a) = false := beq_eq_false_iff_ne.mpr hba
      simpa [hf] using ih hbs

theorem mem_indicatorTail_punct : ∀ b1 b2 : Bool,
    (punctSignal ∈ indicatorTail b1 b2 ↔ b1 = true) := by decide

theorem indicatorTail_nodup : ∀ b1 b2 : Bool, (indicatorTail b1 b2).Nodup := by decide

theorem mem_indicatorTail_cases : ∀ (b1 b2 : Bool) (x : List Char),
    x ∈ indicatorTail b1 b2 → x = punctSignal ∨ x = capsSignal := by
  intro b1 b2 x
  cases b1 <;> cases b2 <;> simp [indicatorTail] <;> tauto

theorem mem_patConcat_excl : ∀ b1 b2 b3 b4 : Bool,
    ("exclamations_excessives".data ∈ patConcat b1 b2 b3 b4 ↔ b2 = true) := by decide

theorem patConcat_nodup : ∀ b1 b2 b3 b4 : Bool, (patConcat b1 b2 b3 b4).Nodup := by decide

theorem mem_patConcat_cases : ∀ (b1 b2 b3 b4 : Bool) (x : List Char),
    x ∈ patConcat b1 b2 b3 b4 →
      x = "questions_rhetoriques".data ∨ x = "exclamations_excessives".data ∨
      x = "generalisation".data ∨ x = "comparaison_negative".data := by
  intro b1 b2 b3 b4 x
  cases b1 <;> cases b2 <;> cases b3 <;> cases b4 <;> simp [patConcat] <;> tauto

/-- The trigger list of `detect_triggers` never repeats an entry. -/
theorem detect_triggers_nodup (s : List Char) : (detect_triggers s).Nodup := by
  rw [detect_triggers_eq_indicator]
  apply List.Nodup.append
  · exact (by decide : hf_trigger_phrases.Nodup).filter _
  · exact indicatorTail_nodup _ _
  · intro x hx hx2
    have hxp := (List.mem_filter.mp hx).1
    rcases mem_indicatorTail_cases _ _ x hx2 with rfl | rfl
    · exact (by decide : punctSignal ∉ hf_trigger_phrases) hxp
    · exact (by decide : capsSignal ∉ hf_trigger_phrases) hxp

/-- The `emotion_detected` list of `analyze_sentiment` never repeats an
entry: each lexicon category is recorded at most once (category-level
dedup) and each pattern tag at most once. -/
theorem analyze_sentiment_emotions_nodup (s : List Char) :
    (analyze_sentiment_emotions s).Nodup := by
  unfold analyze_sentiment_emotions
  split_ifs with h
  · exact List.nodup_nil
  · apply List.Nodup.append
    · have hsub : List.Sublist (analyzer_trigger_words.filter
          (fun pr => pr.2.any (fun w => containsSub w (s.map pyLowerChar))))
            analyzer_trigger_words := List.filter_sublist _
      exact List.Nodup.sublist (hsub.map Prod.fst)
        (by decide : (analyzer_trigger_words.map Prod.fst).Nodup)
    · unfold detect_patterns
      exact patConcat_nodup _ _ _ _
    · intro x hx hx2
      rcases List.mem_map.mp hx with ⟨pr, hpr, rfl⟩
      have h1 : pr ∈ analyzer_trigger_words := (List.mem_filter.mp hpr).1
      have h2 : pr.1 ∈ analyzer_trigger_words.map Prod.fst :=
        List.mem_map_of_mem Prod.fst h1
      unfold detect_patterns at hx2
      rcases mem_patConcat_cases _ _ _ _ _ hx2 with h3 | h3 | h3 | h3 <;>
        rw [h3] at h2 <;> revert h2 <;> decide

/-- **C4, counterexample.**  The claim says a message with a single `?` (or a
single `!`) and no other tension indicator yields no punctuation-excess
signal, requiring more than two `!`.  `detect_triggers` emits
`ponctuation excessive` for the one-character message `"?"`, which contains
zero `!`. -/
theorem c4_single_question_counterexample :
    detect_triggers ['?'] = [punctSignal] ∧
    countChar '!' ['?'] = 0 ∧ countChar '?' ['?'] = 1 := by
  refine ⟨by decide, by decide, by decide⟩

/-- **C4** (amended).  `detect_triggers` (the rephraser's detector) emits the
punctuation-excess signal exactly when the message contains at least one `!`
or at least one `?`; the more-than-two-`!` threshold belongs to
`_detect_patterns` of the sentiment analyzer, which emits
`exclamations_excessives` exactly when the message contains more than two `!`
characters. -/
theorem c4_punctuation_signal_conditions (s : List Char) :
    (punctSignal ∈ detect_triggers s ↔ hasExclOrQuestion s = true) ∧
    ("exclamations_excessives".data ∈ detect_patterns s ↔ 2 < countChar '!' s) := by
  constructor
  · rw [detect_triggers_eq_indicator]
    constructor
    · intro h
      rcases List.mem_append.mp h with h1 | h2
      · exact absurd (List.mem_filter.mp h1).1 (by decide)
      · exact (mem_indicatorTail_punct _ _).mp h2
    · intro hq
      exact List.mem_append.mpr (Or.inr ((mem_indicatorTail_punct _ _).mpr hq))
  · unfold detect_patterns
    rw [mem_patConcat_excl]
    exact decide_eq_true_iff

/-- **C4, witness.**  The two conditions at concrete inputs: one `!` already
triggers the rephraser's punctuation signal, while the analyzer's pattern
needs three `!`. -/
theorem c4_punctuation_signal_witness :
    punctSignal ∈ detect_triggers ['!'] ∧
    "exclamations_excessives".data ∈ detect_patterns ['!', '!', '!'] :=
  ⟨(c4_punctuation_signal_conditions ['!']).1.mpr (by decide),
   (c4_punctuation_signal_conditions ['!', '!', '!']).2.mpr (by decide)⟩

/-- **C5, counterexample.**  `encore` and `jamais` are two distinct trigger
phrases of the same lexicon category (`reproches`), yet `detect_triggers`
records two signals for the message `"encore jamais"`, not one: its
deduplication is phrase-level, not category-level. -/
theorem c5_phrase_level_counterexample :
    detect_triggers "encore jamais".data = ["encore".data, "jamais".data] ∧
    "encore".data ∈ reproches_words ∧ "jamais".data ∈ reproches_words := by
  refine ⟨by decide, by decide, by decide⟩

/-- **C5** (amended).  Category-level deduplication holds for the sentiment
analyzer's scan: `analyze_sentiment` records each category tag (and each
pattern tag) at most once in `emotion_detected`.  The rephraser's
`detect_triggers` deduplicates per phrase instead: each trigger phrase and
pseudo-signal appears at most once, but two same-category phrases yield two
entries. -/
theorem c5_signal_dedup (s : List Char) (c : List Char) :
    (analyze_sentiment_emotions s).count c ≤ 1 ∧ (detect_triggers s).count c ≤ 1 :=
  ⟨nodup_count_le_one c _ (analyze_sentiment_emotions_nodup s),
   nodup_count_le_one c _ (detect_triggers_nodup s)⟩

/-- **C6.**  Full characterization of `_validate_reformulation`: a candidate
is accepted exactly when its stripped length is at least 5, it contains no
lexicon trigger phrase (case-insensitively, via the lowercased text), its
length is at most 500, and it contains neither a `!!` nor a `???` run.
Consequently every string of fewer than 5 characters or more than 500
characters is rejected regardless of content, a candidate of exactly 5
non-whitespace characters violating no other rule is accepted, and so is a
candidate of exactly 500 characters violating no other rule. -/
theorem c6_validator_characterization (s : List Char) :
    validate_reformulation s = true ↔
      (5 ≤ (pyStrip s).length ∧
       (∀ t ∈ mr_trigger_phrases, containsSub t (s.map pyLowerChar) = false) ∧
       s.length ≤ 500 ∧
       containsSub "!!".data s = false ∧
       containsSub "???".data s = false) := by
  unfold validate_reformulation
  split_ifs with h1 h2 h3 h4 h5
  · subst h1
    constructor
    · intro h; exact absurd h (by decide)
    · rintro ⟨hlen, -⟩; exact absurd hlen (by decide)
  · constructor
    · intro h; exact absurd h (by decide)
    · rintro ⟨hlen, -⟩; exact absurd hlen (by omega)
  · constructor
    · intro h; exact absurd h (by decide)
    · rintro ⟨-, htr, -⟩
      rcases List.any_eq_true.mp h3 with ⟨t, ht, hc⟩
      rw [htr t ht] at hc
      exact absurd hc (by decide)
  · constructor
    · intro h; exact absurd h (by decide)
    · rintro ⟨-, -, hlen, -⟩; exact absurd hlen (by omega)
  · constructor
    · intro h; exact absurd h (by decide)
    · rintro ⟨-, -, -, hb1, hb2⟩
      rw [hb1, hb2] at h5
      exact absurd h5 (by decide)
  · constructor
    · intro _
      refine ⟨by omega, ?_, by omega, ?_, ?_⟩
      · intro t ht
        cases hcc : containsSub t (s.map pyLowerChar)
        · rfl
        · exact absurd (List.any_eq_true.mpr ⟨t, ht, hcc⟩) h3
      · cases hcc : containsSub "!!".data s
        · rfl
        · exact absurd (by simp [hcc]) h5
      · cases hcc : containsSub "???".data s
        · rfl
        · exact absurd (by simp [hcc]) h5
    · intro _; rfl

/-- **C6, witness.**  A 5-character non-whitespace candidate with no trigger
and no punctuation run is accepted. -/
theorem c6_validator_witness : validate_reformulation "Salut".data = true :=
  (c6_validator_characterization "Salut".data).mpr
    ⟨by decide, by decide, by decide, by decide, by decide⟩

/-- **C7, counterexample.**  The claim says that whenever the option list is
empty the already-appropriate guidance is returned even if signals were
detected.  With four detected signals and an empty option list,
`generate_recommendation` returns the strong-recommendation guidance instead:
the trigger-count checks run before the empty-options check. -/
theorem c7_signals_before_options_counterexample :
    generate_recommendation [['a'], ['b'], ['c'], ['d']] [] =
      "Votre message contient plusieurs éléments de tension. Nous recommandons fortement d'utiliser une des reformulations proposées.".data ∧
    generate_recommendation [['a'], ['b'], ['c'], ['d']] [] ≠
      "Votre message est déjà approprié pour la communication.".data := by
  refine ⟨by decide, by decide⟩

/-- **C7** (amended).  `generate_recommendation` maps: more than 3 signals to
the strong-recommendation guidance; 1 to 3 signals to the soft-recommendation
guidance; zero signals with an empty option list to the already-appropriate
guidance; and zero signals with a nonempty option list to the optional
guidance.  The signal-count checks take priority: with signals present the
empty option list is ignored. -/
theorem c7_recommendation_mapping (ts : List (List Char)) (os : List RewriteOption) :
    (generate_recommendation ts os =
        "Votre message contient plusieurs éléments de tension. Nous recommandons fortement d'utiliser une des reformulations proposées.".data
      ↔ 3 < ts.length) ∧
    (generate_recommendation ts os =
        "Votre message pourrait être mal interprété. Une reformulation pourrait améliorer la communication.".data
      ↔ (0 < ts.length ∧ ts.length ≤ 3)) ∧
    (generate_recommendation ts os =
        "Votre message est déjà approprié pour la communication.".data
      ↔ (ts.length = 0 ∧ os = [])) ∧
    (generate_recommendation ts os =
        "Votre message est assez neutre. Les reformulations sont optionnelles.".data
      ↔ (ts.length = 0 ∧ os ≠ [])) := by
  unfold generate_recommendation
  split_ifs with h1 h2 h3
  · refine ⟨⟨fun _ => h1, fun _ => rfl⟩,
      ⟨fun h => absurd h (by decide), fun h => absurd h1 (by omega)⟩,
      ⟨fun h => absurd h (by decide), fun h => absurd h1 (by omega)⟩,
      ⟨fun h => absurd h (by decide), fun h => absurd h1 (by omega)⟩⟩
  · refine ⟨⟨fun h => absurd h (by decide), fun h => absurd h h1⟩,
      ⟨fun _ => ⟨h2, by omega⟩, fun _ => rfl⟩,
      ⟨fun h => absurd h (by decide), fun h => absurd h2 (by omega)⟩,
      ⟨fun h => absurd h (by decide), fun h => absurd h2 (by omega)⟩⟩
  · refine ⟨⟨fun h => absurd h (by decide), fun h => absurd h h1⟩,
      ⟨fun h => absurd h (by decide), fun h => absurd h.1 h2⟩,
      ⟨fun _ => ⟨by omega, List.isEmpty_iff.mp h3⟩, fun _ => rfl⟩,
      ⟨fun h => absurd h (by decide), fun h => absurd (List.isEmpty_iff.mp h3) h.2⟩⟩
  · refine ⟨⟨fun h => absurd h (by decide), fun h => absurd h h1⟩,
      ⟨fun h => absurd h (by decide), fun h => absurd h.1 h2⟩,
      ⟨fun h => absurd h (by decide), fun h => absurd (List.isEmpty_iff.mpr h.2) h3⟩,
      ⟨fun _ => ⟨by omega, fun he => h3 (List.isEmpty_iff.mpr he)⟩, fun _ => rfl⟩⟩

/-- **C7, witness.**  Zero signals and zero options yield the
already-appropriate guidance. -/
theorem c7_recommendation_mapping_witness :
    generate_recommendation [] [] =
      "Votre message est déjà approprié pour la communication.".data :=
  (c7_recommendation_mapping [] []).2.2.1.mpr ⟨rfl, rfl⟩
